import Mathlib

/-!
Verification of the EA webstore automation engine (Okan0/ea_webstore).

This file is a shallow embedding in Lean 4 of the parts of the repository
that the specified properties talk about: configuration validation
(src/core/config.py), the cooperative purchase scheduler, the offer
client, the run loop and the OTC login polling (src/webstore/connector.py,
src/webstore/lotr/connector.py, src/webstore/swgoh/connector.py), and the
pickled session store.

Modelling conventions:
* The Python `sched.scheduler` queue is modelled as a list of events; `enter`
  appends an event with `time := now + delay`.  None of the verified
  properties depend on heap ordering, only on queue membership and on the
  first purchase entry found, which the hypotheses pin down.
* HTTP traffic is modelled by `Response` values handed to the functions;
  the `body` of a response is the already-parsed payload (the JSON-to-object
  constructors in types.py / store_types.py are pure field marshaling).
* Python exceptions are modelled with `Except PyError`; each constructor
  of `PyError` names the concrete Python exception it stands for.
* Machine integers: all the timestamps, delays and status codes involved
  are small integers, embedded as `Int` / `Nat` (no overflow is possible
  in the ranges the source handles).
-/

namespace EAWebstore

/-- Python exceptions raised by the embedded code paths.  Each constructor
records the concrete exception the source raises at that point. -/
inductive PyError where
  /-- Raised as `NotImplementedError` carrying the unhandled status code -/
  | unhandledStatus (code : Nat)
  /-- Raised as `AttributeError` from using `None` as a `StoreData` object -/
  | attributeErrorNoneType
  /-- Raised as `IndexError` from `messages[0]` on an empty message list -/
  | indexError
  /-- Raised as `ValueError` (the verification code was not found in the inbox) -/
  | valueErrorCodeNotFound
  /-- Raised as a plain `Exception` (failed to get accounts URL) in `EAWebstoreConnector.login` -/
  | accountsUrlFailed
  /-- Raised as `pickle.UnpicklingError` (or any deserialization error) from `pickle.load` -/
  | unpicklingError
  /-- Raised as `SchedulingConflictError` from `Config.valiate` -/
  | schedulingConflict
  deriving DecidableEq

/-- Configuration options read by the core, from src/core/config.py.
`is_self_scheduling` reads the `script_is_self_scheduling` key,
`allow_scheduling` the `allow_scheduling` key, `max_delay_scheduling_time`
the key of the same name (int seconds, fallback 0), and
`max_login_attempts` the `max_verification_attempts` key (fallback 10). -/
structure ConfigData where
  is_self_scheduling : Bool
  allow_scheduling : Bool
  max_delay_scheduling_time : Int
  max_login_attempts : Nat
  deriving DecidableEq

/-- Config.valiate (sic, the spelling used by the source): raises
`SchedulingConflictError` when both scheduling modes are enabled
(src/core/config.py lines 193-195). -/
def valiate (c : ConfigData) : Except PyError Unit :=
  if c.is_self_scheduling = true ∧ c.allow_scheduling = true then
    Except.error PyError.schedulingConflict
  else
    Except.ok ()

/-- Config.load_config on a configuration file path
(src/core/config.py lines 197-205): the file is parsed into a
`ConfigData` (configparser field marshaling) and then validated.
This runs in the constructor of the connector, before any run cycle. -/
def load_config (c : ConfigData) : Except PyError ConfigData :=
  match valiate c with
  | Except.error e => Except.error e
  | Except.ok _ => Except.ok c

/-- Actions a scheduler queue entry can hold.  Bound-method identity in
`queue_entry.action != self.purchase_offer` is modelled by constructor
equality (all entries belong to the same connector instance). -/
inductive Action where
  | ping
  | connectionCheck
  | purchaseOffer
  | runTask
  deriving DecidableEq

/-- Does the action of the entry equal `self.purchase_offer`? -/
def isPurchase : Action → Bool
  | Action.purchaseOffer => true
  | _ => false

/-- One `sched` queue entry: `Event(time, priority, action, kwargs)`.
`kwargs` is the keyword-argument dict handed to `scheduler.enter`,
modelled as an association list. -/
structure Event where
  time : Int
  priority : Int
  action : Action
  kwargs : List (String × String)
  deriving DecidableEq

/-- Membership test `key in dict` of Python: true iff `k` is one of the
KEYS of the dict. -/
def hasKey (k : String) (kw : List (String × String)) : Bool :=
  kw.any (fun p => p.1 == k)

/-- Value of a kwargs key, for stating queue properties. -/
def kwValue (k : String) (kw : List (String × String)) : Option String :=
  (kw.find? (fun p => p.1 == k)).map (fun p => p.2)

/-- schedule_purchase (src/webstore/lotr/connector.py lines 305-333 and
src/webstore/connector.py lines 368-401; both variants have the same
control flow).  Returns the new queue and whether the
"Item already scheduled, skipping" warning was logged.
The duplicate scan is the loop of the source verbatim: it skips entries whose
action is not `purchase_offer` and returns early when
`item_id in queue_entry.kwargs`, which in Python tests `item_id` against
the dict KEYS `\x7b"item_id", "currency_type"\x7d`. -/
def schedule_purchase (cfg : ConfigData) (now : Int) (q : List Event)
    (delay : Int) (item_id currency_type : String) : List Event × Bool :=
  if cfg.is_self_scheduling = false ∧ cfg.allow_scheduling = false then
    (q, false)
  else if cfg.allow_scheduling = true ∧ 0 < cfg.max_delay_scheduling_time
      ∧ cfg.max_delay_scheduling_time < delay then
    (q, false)
  else if q.any (fun e => isPurchase e.action && hasKey item_id e.kwargs) then
    (q, true)
  else
    (q ++ [Event.mk (now + delay) 1 Action.purchaseOffer
      [("item_id", item_id), ("currency_type", currency_type)]], false)

/-- Number of queued Purchase tasks whose `item_id` kwarg is `iid`. -/
def countPurchaseTasks (q : List Event) (iid : String) : Nat :=
  (q.filter (fun e => isPurchase e.action && (kwValue "item_id" e.kwargs == some iid))).length

/-- Result of schedule_run: either the run cycle is invoked synchronously
(`run_directly` branch) or the queue is updated. -/
inductive ScheduleRunResult where
  | runNow
  | queue (q : List Event)
  deriving DecidableEq

/-- LotRWebstoreConnector.schedule_run
(src/webstore/lotr/connector.py lines 339-363). -/
def lotr_schedule_run (cfg : ConfigData) (now : Int) (q : List Event)
    (run_directly : Bool) : ScheduleRunResult :=
  if cfg.is_self_scheduling = false ∧ cfg.allow_scheduling = false then
    ScheduleRunResult.queue q
  else if run_directly then
    ScheduleRunResult.runNow
  else
    match q.find? (fun e => isPurchase e.action) with
    | some e => ScheduleRunResult.queue (q ++ [Event.mk (e.time + 5) 1 Action.runTask []])
    | none => ScheduleRunResult.queue (q ++ [Event.mk (now + 3600) 1 Action.runTask []])

/-- EAWebstoreConnector.schedule_run
(src/webstore/connector.py lines 412-437): identical to the LotR variant
except that when no purchase is queued and `allow_scheduling` is on it
returns without scheduling the one-hour fallback run. -/
def ea_schedule_run (cfg : ConfigData) (now : Int) (q : List Event)
    (run_directly : Bool) : ScheduleRunResult :=
  if cfg.is_self_scheduling = false ∧ cfg.allow_scheduling = false then
    ScheduleRunResult.queue q
  else if run_directly then
    ScheduleRunResult.runNow
  else
    match q.find? (fun e => isPurchase e.action) with
    | some e => ScheduleRunResult.queue (q ++ [Event.mk (e.time + 5) 1 Action.runTask []])
    | none =>
      if cfg.allow_scheduling = true then
        ScheduleRunResult.queue q
      else
        ScheduleRunResult.queue (q ++ [Event.mk (now + 3600) 1 Action.runTask []])

/-- Delay-scheduling configuration used as concrete input:
`allow_scheduling` on, no maximum delay, default login attempts. -/
def cfgDelayMode : ConfigData := ConfigData.mk false true 0 10

/-- Offer price (src/webstore/lotr/types.py, OfferPrice).  The source
stores `purchase_amount` as a float, but every value it compares or that
the spec mentions is a small integer, so it is embedded as `Int`. -/
structure OfferPrice where
  purchase_currency : String
  purchase_amount : Int
  deriving DecidableEq

/-- LotR store offer (src/webstore/lotr/types.py, Offer), restricted to
the fields the run loop reads; the remaining fields are pure marshaling
never consulted by the core. -/
structure Offer where
  id : String
  price : OfferPrice
  is_free_offer : Bool
  purchase_cooldown_left : Int
  deriving DecidableEq

/-- LotR store item metadata (src/webstore/lotr/types.py, Item). -/
structure Item where
  title : String
  deriving DecidableEq

/-- One web store offer entry (src/webstore/lotr/types.py, WebStoreOffer). -/
structure WebStoreOffer where
  offer : Offer
  item : Item
  deriving DecidableEq

/-- LotR store snapshot (src/webstore/lotr/types.py, StoreData),
restricted to `web_store_offers`, the only field the run loop reads. -/
structure StoreData where
  web_store_offers : List WebStoreOffer
  deriving DecidableEq

/-- SWGOH store offer (src/webstore/swgoh/store_types.py, Offer),
restricted to the fields `_handle_offers` reads.  `availableAtEpoch`
defaults to 0 when the key is missing but is `None` when the JSON holds
an explicit null, hence `Option Int`. -/
structure SwOffer where
  currencyType : String
  price : Int
  availableAtEpoch : Option Int
  deriving DecidableEq

/-- SWGOH store item (src/webstore/swgoh/store_types.py, StoreItem),
restricted to the fields `_handle_offers` reads. -/
structure SwItem where
  id : String
  name : String
  startTime : Int
  endTime : Int
  offers : List SwOffer
  deriving DecidableEq

/-- SWGOH store snapshot (src/webstore/swgoh/store_types.py, StoreData). -/
structure SwStoreData where
  items : List SwItem
  deriving DecidableEq

/-- An HTTP response as the offer client sees it: the status code and the
parsed JSON payload (`response.json()` piped through the types.py
constructors, which are pure field marshaling). -/
structure Response (α : Type) where
  status : Nat
  body : α
  deriving DecidableEq

/-- LotRWebstoreConnector.get_offers
(src/webstore/lotr/connector.py lines 157-186): 200 maps the body through
`StoreData`, 401 returns `None`, anything else raises
`NotImplementedError`. -/
def lotr_get_offers (r : Response StoreData) : Except PyError (Option StoreData) :=
  if r.status = 200 then Except.ok (some r.body)
  else if r.status = 401 then Except.ok none
  else Except.error (PyError.unhandledStatus r.status)

/-- EAWebstoreConnector.get_offers
(src/webstore/connector.py lines 110-136): same status dispatch, with the
body wrapped by `_wrap_offers` into the SWGOH `StoreData`. -/
def ea_get_offers (r : Response SwStoreData) : Except PyError (Option SwStoreData) :=
  if r.status = 200 then Except.ok (some r.body)
  else if r.status = 401 then Except.ok none
  else Except.error (PyError.unhandledStatus r.status)

/-- What the LotR run loop decides for one offer
(src/webstore/lotr/connector.py lines 392-411): skip non-free offers,
log an anomaly and skip free offers with a positive price, schedule
free offers still on cooldown, purchase the rest immediately.
`purchase_cooldown_left` is tested by Python truthiness (nonzero). -/
inductive OfferDecision where
  | skippedNotFree
  | anomaly
  | scheduled (delay : Int) (item_id currency : String)
  | purchasedNow (item_id currency : String)
  deriving DecidableEq

/-- Per-offer classification step of LotRWebstoreConnector.run
(src/webstore/lotr/connector.py lines 392-411). -/
def lotr_classify (o : Offer) : OfferDecision :=
  if o.is_free_offer = false then OfferDecision.skippedNotFree
  else if 0 < o.price.purchase_amount then OfferDecision.anomaly
  else if o.purchase_cooldown_left ≠ 0 then
    OfferDecision.scheduled o.purchase_cooldown_left o.id o.price.purchase_currency
  else
    OfferDecision.purchasedNow o.id o.price.purchase_currency

/-- What SwgohWebstoreConnector._handle_offers decides for one item
(src/webstore/swgoh/connector.py lines 25-55). -/
inductive SwDecision where
  | noFreeOffer
  | notYetStarted
  | alreadyExpired
  /-- Raised: `datetime.fromtimestamp(None)` raises `TypeError` when
  `availableAtEpoch` is null and the schedule branch is taken -/
  | typeErrorNoneEpoch
  | scheduled (delay : Int) (item_id currency : String)
  | purchased (item_id currency : String)
  deriving DecidableEq

/-- Per-item step of SwgohWebstoreConnector._handle_offers
(src/webstore/swgoh/connector.py lines 25-55).  `delta.seconds` on a
positive `timedelta` is the seconds component, i.e. the total seconds
modulo 86400, and the handler performs no price check at all. -/
def swgoh_handle_item (now : Int) (it : SwItem) : SwDecision :=
  match it.offers.filter (fun o => o.currencyType == "FREE") with
  | [] => SwDecision.noFreeOffer
  | o :: _ =>
    if now < it.startTime then SwDecision.notYetStarted
    else if it.endTime < now then SwDecision.alreadyExpired
    else
      match o.availableAtEpoch with
      | none => SwDecision.typeErrorNoneEpoch
      | some t =>
        if now < t then SwDecision.scheduled ((t - now) % 86400) it.id o.currencyType
        else SwDecision.purchased it.id o.currencyType

/-- Offer acquisition of LotRWebstoreConnector.run
(src/webstore/lotr/connector.py lines 385-391): fetch, and when the fetch
returns the 401 sentinel (`None`, which is falsy) perform `login()` and
fetch once more.  If the retried fetch also yields `None`, the iteration
over `offers.web_store_offers` raises `AttributeError` on `None`.
Returns the offers together with (number of fetches, number of logins);
the interposed `login()` is modelled as succeeding (its own failures
simply propagate in the source). -/
def lotr_run_acquire (r1 r2 : Response StoreData) :
    Except PyError (StoreData × Nat × Nat) :=
  match lotr_get_offers r1 with
  | Except.error e => Except.error e
  | Except.ok (some d) => Except.ok (d, 1, 0)
  | Except.ok none =>
    match lotr_get_offers r2 with
    | Except.error e => Except.error e
    | Except.ok (some d) => Except.ok (d, 2, 1)
    | Except.ok none => Except.error PyError.attributeErrorNoneType

/-- Offer acquisition of EAWebstoreConnector.run
(src/webstore/connector.py lines 462-467): `login()` runs first (a no-op
when `auth_id` is already set), then a single `get_offers` call whose
result is handed directly to `_handle_offers`; there is no retry, so a
401 sentinel makes `_handle_offers` dereference `None` and raise
`AttributeError`.  Returns (offers, fetches, logins). -/
def ea_run_acquire (auth_id_set : Bool) (r1 : Response SwStoreData) :
    Except PyError (SwStoreData × Nat × Nat) :=
  let logins : Nat := if auth_id_set then 0 else 1
  match ea_get_offers r1 with
  | Except.error e => Except.error e
  | Except.ok (some d) => Except.ok (d, 1, logins)
  | Except.ok none => Except.error PyError.attributeErrorNoneType

/-- The in-memory HTTP session state (`requests.Session`), reduced to its
observable credential content: the cookie jar. -/
structure SessionData where
  cookies : List (String × String)
  deriving DecidableEq

/-- Content of a persisted session file, at the granularity `pickle.load`
distinguishes: either a well-formed pickle of a session, or bytes that
make deserialization raise. -/
inductive PickleFile where
  | valid (s : SessionData)
  | corrupt
  deriving DecidableEq

/-- Semantics of `pickle.load` on the bytes of a session file. -/
def pickle_load : PickleFile → Except PyError SessionData
  | PickleFile.valid s => Except.ok s
  | PickleFile.corrupt => Except.error PyError.unpicklingError

/-- LotRWebstoreConnector.load_session (src/webstore/lotr/connector.py
lines 69-77; src/webstore/connector.py lines 87-95 is identical): opens
the file and assigns `pickle.load(file)` to `self.session` with no
exception handling, so a deserialization error propagates. -/
def load_session (content : PickleFile) : Except PyError SessionData :=
  pickle_load content

/-- The session-restoring step of the connector constructor
(src/webstore/lotr/connector.py lines 62-64): `load_session` runs only
when the file exists (`file = some content`); otherwise the fresh
`Session()` created just above is kept. -/
def init_session (file : Option PickleFile) (fresh : SessionData) :
    Except PyError SessionData :=
  match file with
  | none => Except.ok fresh
  | some content => load_session content

/-- An inbox listing entry (gmail/types.py, GmailMessageListEntry). -/
structure MessageRef where
  id : String
  deriving DecidableEq

/-- An inbox listing (gmail/types.py, GmailMessageListResponse):
message references, newest first. -/
structure MessageList where
  messages : List MessageRef
  deriving DecidableEq

/-- Details of one message (gmail/types.py, GmailMessageWrapper): the
`To` and `Subject` headers, absent when the header is missing. -/
structure MessageDetails where
  receiver : Option String
  subject : Option String
  deriving DecidableEq

/-- Python truthiness test `not x` for an optional string: true for
`None` and for the empty string. -/
def falsyStr : Option String → Bool
  | none => true
  | some s => s.toList.isEmpty

/-- Does `needle` start `hay`? (character-list version of the Python
startswith, used to build the substring test). -/
def charsStartWith : List Char → List Char → Bool
  | [], _ => true
  | _ :: _, [] => false
  | n :: ns, h :: hs => n == h && charsStartWith ns hs

/-- Substring containment `needle in hay` as in Python. -/
def charsContain (needle : List Char) : List Char → Bool
  | [] => needle.isEmpty
  | c :: cs => charsStartWith needle (c :: cs) || charsContain needle cs

/-- Python substring test `needle in hay` on strings. -/
def strContains (hay needle : String) : Bool :=
  charsContain needle.toList hay.toList

/-- Semantics of `EA_SUBJECT_PATTERN.match(subject)` with the pattern
`^Verification Code For EA[^0-9]*([0-9]+)$`
(src/webstore/connector.py line 46, src/webstore/lotr/connector.py line
44): the subject must be the literal header, then non-digits, then a
nonempty digit run reaching the end; group 1 is that digit run. -/
def ea_subject_code (s : String) : Option String :=
  let header := "Verification Code For EA"
  if charsStartWith header.toList s.toList then
    let rest := s.toList.drop header.toList.length
    let ds := rest.dropWhile (fun ch => ch.isDigit = false)
    if ds.isEmpty = false ∧ ds.all Char.isDigit then some (String.mk ds)
    else none
  else none

/-- get_code_from_message (src/webstore/lotr/connector.py lines 237-246;
src/webstore/connector.py lines 187-198 is the same modulo the
gmail-connector presence guard): fetch the message details, require a
truthy receiver and subject, require the account email to occur in the
receiver, and return the digit group of the subject pattern.
`details` is the `getMessage` operation of the mailbox collaborator. -/
def get_code_from_message (email : String)
    (details : String → MessageDetails) (mid : String) : Option String :=
  let m := details mid
  if falsyStr m.receiver || falsyStr m.subject then none
  else if strContains (m.receiver.getD "") email = false then none
  else ea_subject_code (m.subject.getD "")

/-- The inner scan of the login polling loop
(src/webstore/lotr/connector.py lines 261-266): walk the new listing
newest-to-oldest, stop on reaching the newest id of the baseline, and return
the first code extracted on the way. -/
def scan_for_code (email : String) (details : String → MessageDetails) :
    List MessageRef → String → Option String
  | [], _ => none
  | m :: rest, stopId =>
    if m.id = stopId then none
    else
      match get_code_from_message email details m.id with
      | some c => some c
      | none => scan_for_code email details rest stopId

/-- The polling loop of LotRWebstoreConnector.login
(src/webstore/lotr/connector.py lines 253-269).  One snapshot is consumed
per attempt, so the snapshot list has length `max_login_attempts`.  When
the newest id is unchanged the attempt is skipped; otherwise the listing
is scanned down to the newest id of the baseline and the baseline advances to
the new listing.  `messages[0]` on an empty listing raises `IndexError`. -/
def lotr_poll_loop (email : String) (details : String → MessageDetails) :
    List MessageList → MessageList → Except PyError (Option String)
  | [], _ => Except.ok none
  | snap :: rest, base =>
    match snap.messages.head?, base.messages.head? with
    | some newest, some bnew =>
      if newest.id = bnew.id then lotr_poll_loop email details rest base
      else
        match scan_for_code email details snap.messages bnew.id with
        | some c => Except.ok (some c)
        | none => lotr_poll_loop email details rest snap
    | _, _ => Except.error PyError.indexError

/-- LotRWebstoreConnector.login (src/webstore/lotr/connector.py lines
248-273): the baseline listing is taken, `request_otc` must answer 200
(else `NotImplementedError`), the inbox is polled, and a missing code
raises `ValueError`; on success the code is handed to `verify_otc`, so
`Except.ok c` states that verification proceeds with code `c`. -/
def lotr_login_code (otcStatus : Nat) (email : String)
    (details : String → MessageDetails) (base : MessageList)
    (snaps : List MessageList) : Except PyError String :=
  if otcStatus ≠ 200 then Except.error (PyError.unhandledStatus otcStatus)
  else
    match lotr_poll_loop email details snaps base with
    | Except.error e => Except.error e
    | Except.ok none => Except.error PyError.valueErrorCodeNotFound
    | Except.ok (some c) => Except.ok c

/-- The polling loop of EAWebstoreConnector._get_code_from_gmail_account
(src/webstore/connector.py lines 315-336).  `get_messages` returns the
empty list `[]` (falsy, modelled `none`) on an HTTP error, which the EA
variant skips with `continue`; the rest matches the LotR loop. -/
def ea_poll_loop (email : String) (details : String → MessageDetails) :
    List (Option MessageList) → MessageList → Except PyError (Option String)
  | [], _ => Except.ok none
  | none :: rest, base => ea_poll_loop email details rest base
  | some snap :: rest, base =>
    match snap.messages.head?, base.messages.head? with
    | some newest, some bnew =>
      if newest.id = bnew.id then ea_poll_loop email details rest base
      else
        match scan_for_code email details snap.messages bnew.id with
        | some c => Except.ok (some c)
        | none => ea_poll_loop email details rest snap
    | _, _ => Except.error PyError.indexError

/-- Where the one-time code of the EA login came from. -/
inductive CodeSource where
  /-- extracted from the inbox by polling -/
  | gmail (code : String)
  /-- Prompted via `input`: the user is asked for the code interactively -/
  | promptUser
  deriving DecidableEq

/-- The code-acquisition step of EAWebstoreConnector._perform_login
(src/webstore/connector.py lines 265-268 with lines 310-336):
`_get_code_from_gmail_account` returns `None` when the gmail connector or
the baseline is absent (`base = none`) or when polling is exhausted, and
then the code is read from an interactive prompt instead of failing. -/
def ea_code_acquire (email : String) (details : String → MessageDetails)
    (base : Option MessageList) (osnaps : List (Option MessageList)) :
    Except PyError CodeSource :=
  match base with
  | none => Except.ok CodeSource.promptUser
  | some b =>
    match ea_poll_loop email details osnaps b with
    | Except.error e => Except.error e
    | Except.ok (some c) => Except.ok (CodeSource.gmail c)
    | Except.ok none => Except.ok CodeSource.promptUser

/-- Connector state observed by EAWebstoreConnector.login: the session
object and the optional `auth_id` bearer token. -/
structure EAConnState where
  session : SessionData
  auth_id : Option String
  deriving DecidableEq

/-- Environment of one EAWebstoreConnector.login call: the auth endpoint
response, whether its final URL already carries a `code` query parameter,
the outcome of the `_perform_login` OTC subflow (the code obtained and
the number of HTTP requests it made), and the `authId` returned by the
access-code exchange. -/
structure LoginEnv where
  authStatus : Nat
  authCodeInUrl : Option String
  performLoginOutcome : Except PyError (String × Nat)
  finishAuthId : String

/-- Observable outcome of EAWebstoreConnector.login: the state afterwards,
how many HTTP requests were issued, whether `save_session` wrote the
session file, and whether the login flow past the early-return guard ran. -/
structure LoginOutcome where
  state : EAConnState
  httpRequests : Nat
  savedSession : Bool
  performedFlow : Bool
  deriving DecidableEq

/-- EAWebstoreConnector.login (src/webstore/connector.py lines 200-234):
return immediately when `auth_id` is set and `force_login` is false;
otherwise request the accounts URL (non-200 raises), either read the code
from the redirect URL (no session save) or run `_perform_login` (session
saved afterwards), and finish by exchanging the code for an `authId`.
The `_perform_login` subflow is supplied by the environment; its inbox
polling part is `ea_code_acquire` above. -/
def ea_login (st : EAConnState) (force_login : Bool) (env : LoginEnv) :
    Except PyError LoginOutcome :=
  if force_login = false ∧ st.auth_id.isSome = true then
    Except.ok (LoginOutcome.mk st 0 false false)
  else if env.authStatus ≠ 200 then
    Except.error PyError.accountsUrlFailed
  else
    match env.authCodeInUrl with
    | some _ =>
      Except.ok (LoginOutcome.mk
        (EAConnState.mk st.session (some env.finishAuthId)) 2 false true)
    | none =>
      match env.performLoginOutcome with
      | Except.error e => Except.error e
      | Except.ok (_, n) =>
        Except.ok (LoginOutcome.mk
          (EAConnState.mk st.session (some env.finishAuthId)) (n + 2) true true)

/-- A concrete mailbox: message "m2" is the EA verification mail for
user@example.com, everything else is unrelated mail. -/
def demoDetails : String → MessageDetails := fun mid =>
  if mid = "m2" then
    MessageDetails.mk (some "user@example.com")
      (some "Verification Code For EA - 123456")
  else
    MessageDetails.mk (some "user@example.com") (some "Welcome")

/-- A concrete baseline inbox listing with a single old message. -/
def demoBase : MessageList := MessageList.mk [MessageRef.mk "m1"]

/-- A concrete login environment for exercising the login guard. -/
def demoEnv : LoginEnv := LoginEnv.mk 200 none (Except.ok ("redir-code", 7)) "auth-9"

/-! ## Helper lemmas about the polling loops -/

theorem scan_for_code_found (email : String) (details : String → MessageDetails)
    (pfx : List MessageRef) (target : MessageRef) (tail : List MessageRef)
    (stopId : String) (c : String)
    (hpfxid : ∀ m ∈ pfx, m.id ≠ stopId)
    (hpfxcode : ∀ m ∈ pfx, get_code_from_message email details m.id = none)
    (htid : target.id ≠ stopId)
    (hcode : get_code_from_message email details target.id = some c) :
    scan_for_code email details (pfx ++ target :: tail) stopId = some c := by
  induction pfx with
  | nil => simp [scan_for_code, htid, hcode]
  | cons m ms ih =>
    have h1 : m.id ≠ stopId := hpfxid m (by simp)
    have h2 : get_code_from_message email details m.id = none := hpfxcode m (by simp)
    simpa [scan_for_code, h1, h2] using
      ih (fun x hx => hpfxid x (by simp [hx])) (fun x hx => hpfxcode x (by simp [hx]))

theorem scan_for_code_none (email : String) (details : String → MessageDetails)
    (msgs : List MessageRef) (stopId : String)
    (hnone : ∀ m ∈ msgs, get_code_from_message email details m.id = none) :
    scan_for_code email details msgs stopId = none := by
  induction msgs with
  | nil => simp [scan_for_code]
  | cons m ms ih =>
    by_cases h : m.id = stopId
    · simp [scan_for_code, h]
    · simpa [scan_for_code, h, hnone m (by simp)] using
        ih (fun x hx => hnone x (by simp [hx]))

theorem lotr_poll_loop_skip (email : String) (details : String → MessageDetails)
    (b : MessageRef) (base : MessageList) (earl rest : List MessageList)
    (hb : base.messages.head? = some b)
    (hearl : ∀ s ∈ earl, s.messages.head? = some b) :
    lotr_poll_loop email details (earl ++ rest) base
      = lotr_poll_loop email details rest base := by
  induction earl with
  | nil => simp
  | cons s ss ih =>
    have hs : s.messages.head? = some b := hearl s (by simp)
    simpa [lotr_poll_loop, hs, hb] using ih (fun x hx => hearl x (by simp [hx]))

theorem lotr_poll_loop_none (email : String) (details : String → MessageDetails)
    (snaps : List MessageList) :
    ∀ (base : MessageList) (bb : MessageRef), base.messages.head? = some bb →
    (∀ s ∈ snaps, s.messages.head? ≠ none) →
    (∀ s ∈ snaps, ∀ m ∈ s.messages, get_code_from_message email details m.id = none) →
    lotr_poll_loop email details snaps base = Except.ok none := by
  induction snaps with
  | nil =>
    intro base bb _ _ _
    simp [lotr_poll_loop]
  | cons s ss ih =>
    intro base bb hb hne hnone
    obtain ⟨nb, hnb⟩ : ∃ nb, s.messages.head? = some nb := by
      cases h : s.messages.head? with
      | none => exact absurd h (hne s (by simp))
      | some x => exact ⟨x, rfl⟩
    by_cases hid : nb.id = bb.id
    · simpa [lotr_poll_loop, hnb, hb, hid] using
        ih base bb hb (fun x hx => hne x (by simp [hx]))
          (fun x hx => hnone x (by simp [hx]))
    · have hscan := scan_for_code_none email details s.messages bb.id (hnone s (by simp))
      simpa [lotr_poll_loop, hnb, hb, hid, hscan] using
        ih s nb hnb (fun x hx => hne x (by simp [hx]))
          (fun x hx => hnone x (by simp [hx]))

theorem ea_poll_loop_none (email : String) (details : String → MessageDetails)
    (osnaps : List (Option MessageList)) :
    ∀ (base : MessageList) (bb : MessageRef), base.messages.head? = some bb →
    (∀ l : MessageList, some l ∈ osnaps → l.messages.head? ≠ none ∧
      ∀ m ∈ l.messages, get_code_from_message email details m.id = none) →
    ea_poll_loop email details osnaps base = Except.ok none := by
  induction osnaps with
  | nil =>
    intro base bb _ _
    simp [ea_poll_loop]
  | cons o os ih =>
    intro base bb hb hone
    cases o with
    | none =>
      simpa [ea_poll_loop] using
        ih base bb hb (fun l hl => hone l (by simp [hl]))
    | some s =>
      obtain ⟨hne, hnone⟩ := hone s (by simp)
      obtain ⟨nb, hnb⟩ : ∃ nb, s.messages.head? = some nb := by
        cases h : s.messages.head? with
        | none => exact absurd h hne
        | some x => exact ⟨x, rfl⟩
      by_cases hid : nb.id = bb.id
      · simpa [ea_poll_loop, hnb, hb, hid] using
          ih base bb hb (fun l hl => hone l (by simp [hl]))
      · have hscan := scan_for_code_none email details s.messages bb.id hnone
        simpa [ea_poll_loop, hnb, hb, hid, hscan] using
          ih s nb hnb (fun l hl => hone l (by simp [hl]))

/-! ## Claim theorems -/

/-- C1: calling schedule_purchase twice with the same item id "X" (delay
scheduling enabled, delay within the configured maximum) does NOT leave
exactly one Purchase task in the queue: the duplicate test
`item_id in queue_entry.kwargs` checks the kwargs dictionary KEYS, which
are always "item_id" and "currency_type", so the second call enqueues a
second Purchase task for "X" and the duplicate warning is never logged.
This contradicts the at-most-one-per-item invariant the warning message
in the source documents. -/
theorem c1_duplicate_purchase_not_suppressed :
    countPurchaseTasks
      (schedule_purchase cfgDelayMode 0
        (schedule_purchase cfgDelayMode 0 [] 600 "X" "FREE").1 600 "X" "FREE").1 "X" = 2
    ∧ (schedule_purchase cfgDelayMode 0
        (schedule_purchase cfgDelayMode 0 [] 600 "X" "FREE").1 600 "X" "FREE").2 = false := by
  constructor <;> rfl

/-- C6: with delay-scheduling enabled, a positive configured maximum
delay, and a requested delay strictly above it, schedule_purchase leaves
the scheduler queue unchanged (and logs no duplicate warning). -/
theorem c6_max_delay_refused (cfg : ConfigData) (now : Int) (q : List Event)
    (delay : Int) (item_id currency_type : String)
    (hallow : cfg.allow_scheduling = true)
    (hmaxpos : 0 < cfg.max_delay_scheduling_time)
    (hover : cfg.max_delay_scheduling_time < delay) :
    schedule_purchase cfg now q delay item_id currency_type = (q, false) := by
  simp [schedule_purchase, hallow, hmaxpos, hover]

/-- Witness for C6 at a concrete configuration: maximum 100 seconds,
requested delay 200 seconds. -/
theorem c6_witness :
    schedule_purchase (ConfigData.mk false true 100 10) 0 [] 200 "X" "FREE"
      = ([], false) :=
  c6_max_delay_refused (ConfigData.mk false true 100 10) 0 [] 200 "X" "FREE"
    rfl (by decide) (by decide)

/-- C7 counterexample: in delay-scheduling mode (allow_scheduling on,
self-scheduling off) with no Purchase task queued and run_directly false,
schedule_run of the LotR connector does NOT enqueue nothing: it schedules
the one-hour fallback run cycle. -/
theorem c7_lotr_delay_mode_schedules_fallback :
    lotr_schedule_run cfgDelayMode 0 [] false
      = ScheduleRunResult.queue [Event.mk 3600 1 Action.runTask []]
    ∧ lotr_schedule_run cfgDelayMode 0 [] false
      ≠ ScheduleRunResult.queue [] := by
  constructor
  · rfl
  · decide

/-- C7 amended: with delay-scheduling active (allow_scheduling on,
self-scheduling off), no Purchase task queued and run_directly false, the
EA variant of schedule_run enqueues nothing, while the LotR variant of
schedule_run enqueues the one-hour fallback run cycle. -/
theorem c7_delay_mode_schedule_run_amended (cfg : ConfigData) (now : Int)
    (q : List Event)
    (hallow : cfg.allow_scheduling = true)
    (hself : cfg.is_self_scheduling = false)
    (hnop : q.find? (fun e => isPurchase e.action) = none) :
    ea_schedule_run cfg now q false = ScheduleRunResult.queue q
    ∧ lotr_schedule_run cfg now q false
      = ScheduleRunResult.queue (q ++ [Event.mk (now + 3600) 1 Action.runTask []]) := by
  constructor
  · simp [ea_schedule_run, hallow, hself, hnop]
  · simp [lotr_schedule_run, hallow, hself, hnop]

/-- Witness for the amended C7 statement on an empty queue. -/
theorem c7_witness :
    ea_schedule_run cfgDelayMode 5 [] false = ScheduleRunResult.queue []
    ∧ lotr_schedule_run cfgDelayMode 5 [] false
      = ScheduleRunResult.queue [Event.mk (5 + 3600) 1 Action.runTask []] :=
  c7_delay_mode_schedule_run_amended cfgDelayMode 5 [] rfl rfl rfl

/-- C9: loading a configuration with both script_is_self_scheduling and
allow_scheduling set raises SchedulingConflictError at load time (inside
Config.load_config, which the connector constructor runs before any run
cycle); a configuration with at most one of the two flags set loads
successfully. -/
theorem c9_config_conflict_rejected (c : ConfigData) :
    (c.is_self_scheduling = true → c.allow_scheduling = true →
      load_config c = Except.error PyError.schedulingConflict)
    ∧ ((c.is_self_scheduling = true ∧ c.allow_scheduling = true → False) →
      load_config c = Except.ok c) := by
  constructor
  · intro h1 h2
    simp [load_config, valiate, h1, h2]
  · intro h
    unfold load_config valiate
    rw [if_neg h]

/-- Witness for C9: the conflicting configuration is rejected, the
delay-only configuration loads. -/
theorem c9_witness :
    load_config (ConfigData.mk true true 0 10)
      = Except.error PyError.schedulingConflict
    ∧ load_config cfgDelayMode = Except.ok cfgDelayMode :=
  ⟨(c9_config_conflict_rejected (ConfigData.mk true true 0 10)).1 rfl rfl,
   (c9_config_conflict_rejected cfgDelayMode).2 (by decide)⟩

/-- C3: get_offers (both store variants) returns the mapped offer data on
HTTP 200, the unauthenticated sentinel `None` on 401, and raises
`NotImplementedError` for every other status code; no status outside
200 and 401 returns normally. -/
theorem c3_get_offers_status_dispatch (r : Response StoreData)
    (rs : Response SwStoreData) :
    (r.status = 200 → lotr_get_offers r = Except.ok (some r.body))
    ∧ (r.status = 401 → lotr_get_offers r = Except.ok none)
    ∧ (r.status ≠ 200 → r.status ≠ 401 →
        lotr_get_offers r = Except.error (PyError.unhandledStatus r.status))
    ∧ (rs.status = 200 → ea_get_offers rs = Except.ok (some rs.body))
    ∧ (rs.status = 401 → ea_get_offers rs = Except.ok none)
    ∧ (rs.status ≠ 200 → rs.status ≠ 401 →
        ea_get_offers rs = Except.error (PyError.unhandledStatus rs.status)) := by
  refine ⟨?_, ?_, ?_, ?_, ?_, ?_⟩
  · intro h
    simp [lotr_get_offers, h]
  · intro h
    simp [lotr_get_offers, h]
  · intro h1 h2
    simp [lotr_get_offers, h1, h2]
  · intro h
    simp [ea_get_offers, h]
  · intro h
    simp [ea_get_offers, h]
  · intro h1 h2
    simp [ea_get_offers, h1, h2]

/-- Witness for C3: a 401 yields the sentinel, a 500 raises. -/
theorem c3_witness :
    lotr_get_offers (Response.mk 401 (StoreData.mk [])) = Except.ok none
    ∧ ea_get_offers (Response.mk 500 (SwStoreData.mk []))
      = Except.error (PyError.unhandledStatus 500) :=
  ⟨(c3_get_offers_status_dispatch (Response.mk 401 (StoreData.mk []))
      (Response.mk 500 (SwStoreData.mk []))).2.1 rfl,
   (c3_get_offers_status_dispatch (Response.mk 401 (StoreData.mk []))
      (Response.mk 500 (SwStoreData.mk []))).2.2.2.2.2 (by decide) (by decide)⟩

/-- C4 counterexample: the run cycle of the EA connector does not recover from
the 401 sentinel at all: with auth_id set, a 401 on its single offer
fetch makes `_handle_offers(None)` raise AttributeError without any
login-and-retry, so the 401 sentinel is not retried exactly once. -/
theorem c4_ea_run_no_retry_on_401 :
    ea_run_acquire true (Response.mk 401 (SwStoreData.mk []))
      = Except.error PyError.attributeErrorNoneType := by
  rfl

/-- C4 amended: the LotR run cycle triggers login exactly once and
retries the fetch exactly once when the first fetch returns the 401
sentinel (a 401 on the retried fetch propagates as a fatal error, and a
first fetch that succeeds is never retried); the EA run cycle performs
login up front and never retries: a 401 on its single fetch propagates
as a fatal error. -/
theorem c4_run_401_retry_amended (r1 r2 : Response StoreData)
    (auth_set : Bool) (rs : Response SwStoreData) :
    (r1.status = 200 → lotr_run_acquire r1 r2 = Except.ok (r1.body, 1, 0))
    ∧ (r1.status = 401 → r2.status = 200 →
        lotr_run_acquire r1 r2 = Except.ok (r2.body, 2, 1))
    ∧ (r1.status = 401 → r2.status = 401 →
        lotr_run_acquire r1 r2 = Except.error PyError.attributeErrorNoneType)
    ∧ (rs.status = 401 →
        ea_run_acquire auth_set rs = Except.error PyError.attributeErrorNoneType) := by
  refine ⟨?_, ?_, ?_, ?_⟩
  · intro h
    simp [lotr_run_acquire, lotr_get_offers, h]
  · intro h1 h2
    simp [lotr_run_acquire, lotr_get_offers, h1, h2]
  · intro h1 h2
    simp [lotr_run_acquire, lotr_get_offers, h1, h2]
  · intro h
    simp [ea_run_acquire, ea_get_offers, h]

/-- Witness for the amended C4 statement: 401 then 200 yields the retried
offers after one login and two fetches. -/
theorem c4_witness :
    lotr_run_acquire (Response.mk 401 (StoreData.mk []))
      (Response.mk 200 (StoreData.mk [])) = Except.ok (StoreData.mk [], 2, 1) :=
  (c4_run_401_retry_amended (Response.mk 401 (StoreData.mk []))
    (Response.mk 200 (StoreData.mk [])) true
    (Response.mk 200 (SwStoreData.mk []))).2.1 rfl rfl

/-- C5 counterexample: loading a persisted session file whose content is
corrupt raises the deserialization error to the caller (load_session has
no exception handling), so session loading is not raise-free for every
file content. -/
theorem c5_corrupt_session_raises :
    init_session (some PickleFile.corrupt) (SessionData.mk [])
      = Except.error PyError.unpicklingError := by
  rfl

/-- C5 amended: a missing session file is treated as an absent session
(the fresh session is kept and a new login can recover) and a well-formed
file restores the persisted session, but corrupt or malformed file
content raises the deserialization error to the caller. -/
theorem c5_session_load_amended (file : Option PickleFile) (fresh s : SessionData) :
    (file = none → init_session file fresh = Except.ok fresh)
    ∧ (file = some (PickleFile.valid s) → init_session file fresh = Except.ok s)
    ∧ (file = some PickleFile.corrupt →
        init_session file fresh = Except.error PyError.unpicklingError) := by
  refine ⟨?_, ?_, ?_⟩ <;> intro h <;> subst h <;> rfl

/-- Witness for the amended C5 statement: a valid file restores its session. -/
theorem c5_witness :
    init_session (some (PickleFile.valid (SessionData.mk [("sid", "abc")])))
      (SessionData.mk []) = Except.ok (SessionData.mk [("sid", "abc")]) :=
  (c5_session_load_amended (some (PickleFile.valid (SessionData.mk [("sid", "abc")])))
    (SessionData.mk []) (SessionData.mk [("sid", "abc")])).2.1 rfl

/-- C8 counterexample: the SWGOH run cycle purchases a free-classified
offer (currencyType "FREE") carrying the non-zero price 5 as soon as it
is available: `_handle_offers` performs no price-anomaly check, so the
offer is neither logged as an anomaly nor skipped. -/
theorem c8_swgoh_purchases_free_with_price :
    swgoh_handle_item 50
      (SwItem.mk "itemX" "PackX" 0 100 [SwOffer.mk "FREE" 5 (some 10)])
      = SwDecision.purchased "itemX" "FREE" := by
  rfl

/-- C8 amended: the LotR run cycle logs an anomaly and skips every free
offer with a positive purchase amount (it is neither purchased nor
scheduled), but the SWGOH run cycle classifies offers as free solely by
currencyType "FREE" and purchases an available free offer regardless of
its price field. -/
theorem c8_free_offer_nonzero_price_amended (o : Offer) (now : Int)
    (it : SwItem) (off : SwOffer) (others : List SwOffer) (t : Int)
    (hfree : o.is_free_offer = true)
    (hamt : 0 < o.price.purchase_amount)
    (hoffers : it.offers.filter (fun x => x.currencyType == "FREE") = off :: others)
    (hstart : ¬ now < it.startTime)
    (hend : ¬ it.endTime < now)
    (havail : off.availableAtEpoch = some t)
    (ht : ¬ now < t) :
    lotr_classify o = OfferDecision.anomaly
    ∧ swgoh_handle_item now it = SwDecision.purchased it.id off.currencyType := by
  constructor
  · simp [lotr_classify, hfree, hamt]
  · simp [swgoh_handle_item, hoffers, hstart, hend, havail, ht]

/-- Witness for the amended C8 statement at concrete offers. -/
theorem c8_witness :
    lotr_classify (Offer.mk "X" (OfferPrice.mk "FREE" 7) true 0)
      = OfferDecision.anomaly
    ∧ swgoh_handle_item 60
        (SwItem.mk "itemY" "PackY" 0 100 [SwOffer.mk "FREE" 7 (some 20)])
      = SwDecision.purchased "itemY" "FREE" :=
  c8_free_offer_nonzero_price_amended
    (Offer.mk "X" (OfferPrice.mk "FREE" 7) true 0) 60
    (SwItem.mk "itemY" "PackY" 0 100 [SwOffer.mk "FREE" 7 (some 20)])
    (SwOffer.mk "FREE" 7 (some 20)) [] 20
    rfl (by decide) (by decide) (by decide) (by decide) rfl (by decide)

/-- C10: when auth_id is already set and force_login is left False,
EAWebstoreConnector.login returns immediately: the state (session and
auth_id) is unchanged, no HTTP request is made and the session file is
not written; and whenever login returns successfully past the guard
(auth_id unset or force_login set), the full login flow ran. -/
theorem c10_login_skips_when_authenticated (st : EAConnState) (env : LoginEnv)
    (a : String) (hauth : st.auth_id = some a) :
    ea_login st false env = Except.ok (LoginOutcome.mk st 0 false false)
    ∧ (∀ (st2 : EAConnState) (force : Bool) (env2 : LoginEnv) (out : LoginOutcome),
        st2.auth_id = none ∨ force = true →
        ea_login st2 force env2 = Except.ok out → out.performedFlow = true) := by
  constructor
  · simp [ea_login, hauth]
  · intro st2 force env2 out hcase hok
    have hguard : ¬ (force = false ∧ st2.auth_id.isSome = true) := by
      rcases hcase with h | h
      · rintro ⟨_, h2⟩
        rw [h] at h2
        simp at h2
      · rintro ⟨h1, _⟩
        rw [h] at h1
        exact Bool.noConfusion h1
    unfold ea_login at hok
    rw [if_neg hguard] at hok
    split at hok
    · exact absurd hok (by simp)
    · split at hok
      · injection hok with h'
        subst h'
        rfl
      · split at hok
        · exact absurd hok (by simp)
        · injection hok with h'
          subst h'
          rfl

/-- C2 counterexample: when no matching verification mail ever appears
within the polling attempts (three polls, inbox unchanged), the EA
login of the EA connector does not fail with a code-not-found error: the code
acquisition step of `_perform_login` falls back to prompting the user
for the code interactively. -/
theorem c2_ea_login_prompts_instead_of_failing :
    ea_code_acquire "user@example.com" demoDetails (some demoBase)
      [none, some demoBase, some demoBase] = Except.ok CodeSource.promptUser := by
  rfl

/-- C2 amended: if the earlier polls see no new mail (the newest message
id still equals that of the baseline) and at some attempt `k` within the
snapshot list (whose length is max_login_attempts) new messages appear
above the baseline whose first code-bearing one is `target`, then the
LotR login extracts exactly the digit group `c` of `target` and proceeds to
verification with it; if no code-bearing message appears in any snapshot,
the LotR login raises the code-not-found `ValueError`, while the EA
login falls back in its code acquisition to prompting the user. -/
theorem c2_otc_polling_amended (email : String) (details : String → MessageDetails)
    (base : MessageList) (b : MessageRef) (earl rest : List MessageList)
    (pfx sfx : List MessageRef) (target : MessageRef) (c : String)
    (snaps : List MessageList) (osnaps : List (Option MessageList))
    (hb : base.messages.head? = some b)
    (hearl : ∀ s ∈ earl, s.messages.head? = some b)
    (hpfxid : ∀ m ∈ pfx, m.id ≠ b.id)
    (htid : target.id ≠ b.id)
    (hpfxcode : ∀ m ∈ pfx, get_code_from_message email details m.id = none)
    (hcode : get_code_from_message email details target.id = some c)
    (hne : ∀ s ∈ snaps, s.messages.head? ≠ none)
    (hnone : ∀ s ∈ snaps, ∀ m ∈ s.messages,
      get_code_from_message email details m.id = none)
    (hone : ∀ l : MessageList, some l ∈ osnaps → l.messages.head? ≠ none ∧
      ∀ m ∈ l.messages, get_code_from_message email details m.id = none) :
    lotr_login_code 200 email details base
      (earl ++ MessageList.mk (pfx ++ target :: (sfx ++ base.messages)) :: rest)
      = Except.ok c
    ∧ lotr_login_code 200 email details base snaps
      = Except.error PyError.valueErrorCodeNotFound
    ∧ ea_code_acquire email details (some base) osnaps
      = Except.ok CodeSource.promptUser := by
  refine ⟨?_, ?_, ?_⟩
  · have hstep : lotr_poll_loop email details
        (MessageList.mk (pfx ++ target :: (sfx ++ base.messages)) :: rest) base
        = Except.ok (some c) := by
      cases pfx with
      | nil =>
        have hscan := scan_for_code_found email details [] target
          (sfx ++ base.messages) b.id c (by simp) (by simp) htid hcode
        simp only [List.nil_append] at hscan ⊢
        simp [lotr_poll_loop, hb, htid, hscan]
      | cons p ps =>
        have hscan := scan_for_code_found email details (p :: ps) target
          (sfx ++ base.messages) b.id c hpfxid hpfxcode htid hcode
        have hpid : p.id ≠ b.id := hpfxid p (by simp)
        simp only [List.cons_append] at hscan
        simp [lotr_poll_loop, hb, hpid, hscan]
    have hskip := lotr_poll_loop_skip email details b base earl
      (MessageList.mk (pfx ++ target :: (sfx ++ base.messages)) :: rest) hb hearl
    simp [lotr_login_code, hskip, hstep]
  · have h2 := lotr_poll_loop_none email details snaps base b hb hne hnone
    simp [lotr_login_code, h2]
  · have h3 := ea_poll_loop_none email details osnaps base b hb hone
    simp [ea_code_acquire, h3]

/-- Witness for the amended C2 statement: the verification mail "m2"
appears at the second poll, one no-mail poll preceding it; a run of
polls without it fails (LotR) or prompts (EA). -/
theorem c2_witness :
    lotr_login_code 200 "user@example.com" demoDetails demoBase
      [demoBase, MessageList.mk [MessageRef.mk "m2", MessageRef.mk "m1"]]
      = Except.ok "123456"
    ∧ lotr_login_code 200 "user@example.com" demoDetails demoBase
        [demoBase, demoBase] = Except.error PyError.valueErrorCodeNotFound
    ∧ ea_code_acquire "user@example.com" demoDetails (some demoBase)
        [none, some demoBase] = Except.ok CodeSource.promptUser :=
  c2_otc_polling_amended "user@example.com" demoDetails demoBase (MessageRef.mk "m1")
    [demoBase] [] [] [] (MessageRef.mk "m2") "123456" [demoBase, demoBase]
    [none, some demoBase]
    rfl (by decide) (by decide) (by decide) (by decide) (by decide) (by decide)
    (by decide)
    (by
      intro l hl
      simp at hl
      subst hl
      exact ⟨by decide, by decide⟩)

/-- Witness for C10 at a concrete authenticated state. -/
theorem c10_witness :
    ea_login (EAConnState.mk (SessionData.mk []) (some "auth-1")) false demoEnv
      = Except.ok (LoginOutcome.mk
          (EAConnState.mk (SessionData.mk []) (some "auth-1")) 0 false false) :=
  (c10_login_skips_when_authenticated
    (EAConnState.mk (SessionData.mk []) (some "auth-1")) demoEnv "auth-1" rfl).1

end EAWebstore
